import Mathlib

/-!
Shallow embedding of the content-based recommendation engine of the Rice
repository (`src/backend/recomendacao.py`).

Modelling conventions:
* TF-IDF vectors are `List ℚ`; the TF-IDF matrix is a `List (List ℚ)`
  (one row per catalog item, in catalog order).
* The item catalog `df_itens` is the list of item titles (`Series_Title`),
  in catalog order; `len(df_itens)` is its length.
* The rating table `avaliacoes.csv` is a `List Avaliacao` of
  (usuario_id, filme_id, avaliacao) rows, passed as an explicit argument
  (the Python code reads it from disk inside `construir_perfil_usuario`).
* `numpy.mean(rows, axis=0)` is elementwise sum divided by the row count.
* `linear_kernel(profile, matrix)` is the list of dot products of the
  profile with each matrix row.
* `scores.argsort()` is modelled as a stable ascending sort of the index
  list `[0, ..., M-1]` by score (ties kept in ascending index order, the
  behaviour numpy exhibits on these arrays); `[::-1]` is `List.reverse`,
  and the accumulation loop that stops at `num_recomendacoes` is
  `List.take`.
-/

namespace Rice

/-- One row of `avaliacoes.csv`: `(usuario_id, filme_id, avaliacao)`,
with `avaliacao ∈ {0, 1}` in well-formed data. -/
structure Avaliacao where
  usuario_id : Int
  filme_id : Int
  avaliacao : Int
deriving DecidableEq

/-- Dot product of two vectors (`linear_kernel` of two rows); extra
trailing coordinates of the longer vector are ignored, as both vectors
always have the catalog's common dimensionality in the source. -/
def dot (a b : List ℚ) : ℚ :=
  (List.zipWith (fun x y => x * y) a b).sum

/-- Elementwise difference of two vectors (numpy `-` on arrays). -/
def subVec (a b : List ℚ) : List ℚ :=
  List.zipWith (fun x y => x - y) a b

/-- Scalar multiple of a vector (numpy scalar `*` on arrays). -/
def scaleVec (c : ℚ) (a : List ℚ) : List ℚ :=
  a.map (fun x => c * x)

/-- Elementwise sum of a nonempty family of rows (the summation inside
`numpy.mean(rows, axis=0)`). -/
def sumVecs : List (List ℚ) → List ℚ
  | [] => []
  | [v] => v
  | v :: w :: vs => List.zipWith (fun x y => x + y) v (sumVecs (w :: vs))

/-- `numpy.mean(rows, axis=0)`: elementwise sum divided by the number of
rows. -/
def meanVec (rows : List (List ℚ)) : List ℚ :=
  scaleVec (1 / (rows.length : ℚ)) (sumVecs rows)

/-- `FATOR_PONDERACAO = 0.5` (recomendacao.py line 17): the damping
factor applied to the negative profile. -/
def FATOR_PONDERACAO : ℚ := 1 / 2

/-- The validated item indices extracted by
`_obter_vetores_por_avaliacao` (recomendacao.py lines 94-114): the
`filme_id`s of the user's ratings with the target label, keeping only
those inside `[0, n_itens)`. -/
def indicesValidos (usuario_id : Int) (df_avaliacoes : List Avaliacao)
    (n_itens : Nat) (avaliacao_alvo : Int) : List Int :=
  ((df_avaliacoes.filter fun r =>
      decide (r.usuario_id = usuario_id ∧ r.avaliacao = avaliacao_alvo)).map
    fun r => r.filme_id).filter fun idx =>
      decide (0 ≤ idx ∧ idx < (n_itens : Int))

/-- `_obter_vetores_por_avaliacao` (recomendacao.py lines 81-126): filter
the user's ratings by the target label, drop out-of-range `filme_id`s,
return `None` when nothing is left at either stage, otherwise the mean of
the selected TF-IDF rows. -/
def _obter_vetores_por_avaliacao (usuario_id : Int)
    (df_avaliacoes : List Avaliacao) (df_itens : List String)
    (tfidf_matriz : List (List ℚ)) (avaliacao_alvo : Int) :
    Option (List ℚ) :=
  let avaliacoes_alvo := df_avaliacoes.filter fun r =>
    decide (r.usuario_id = usuario_id ∧ r.avaliacao = avaliacao_alvo)
  if avaliacoes_alvo.isEmpty then none
  else
    let indices_preferidos := avaliacoes_alvo.map fun r => r.filme_id
    let indices_validos := indices_preferidos.filter fun idx =>
      decide (0 ≤ idx ∧ idx < (df_itens.length : Int))
    if indices_validos.isEmpty then none
    else some (meanVec (indices_validos.map fun idx =>
      tfidf_matriz.getD idx.toNat []))

/-- `construir_perfil_usuario` (recomendacao.py lines 128-169): positive
profile, or `None` when it is absent; damped by
`FATOR_PONDERACAO` times the negative profile when one exists.
(The Python name ends in a token the development cannot use, so the
`_usuario` suffix is dropped; the ratings table the Python reads from
`AVALIACOES_PATH` is the explicit last argument.) -/
def construir_perfil (usuario_id : Int) (df_itens : List String)
    (tfidf_matriz : List (List ℚ)) (df_avaliacoes : List Avaliacao) :
    Option (List ℚ) :=
  match _obter_vetores_por_avaliacao usuario_id df_avaliacoes df_itens
      tfidf_matriz 1 with
  | none => none
  | some perfil_positivo =>
    match _obter_vetores_por_avaliacao usuario_id df_avaliacoes df_itens
        tfidf_matriz 0 with
    | some perfil_negativo =>
        some (subVec perfil_positivo
          (scaleVec FATOR_PONDERACAO perfil_negativo))
    | none => some perfil_positivo

/-- The comparison `scores.argsort()` sorts by: smaller score first, ties
in ascending index order (stable sort of the index list). -/
def sRel (scores : List ℚ) (i j : Nat) : Prop :=
  scores.getD i 0 < scores.getD j 0 ∨
    (scores.getD i 0 = scores.getD j 0 ∧ i ≤ j)

instance (scores : List ℚ) : DecidableRel (sRel scores) := fun i j => by
  unfold sRel; infer_instance

/-- `scores.argsort()` (recomendacao.py line 204): the indices
`0, ..., M-1` sorted by ascending score, modelled as a stable sort
(ties kept in ascending index order).  Faithfulness boundary: numpy's
default `quicksort` argsort is an introsort that degenerates to a
stable insertion sort exactly on arrays of at most 16 elements
(partitioning only triggers above `SMALL_QUICKSORT = 15`), so this
model agrees with numpy on tie order only for `scores.length ≤ 16`;
on longer arrays numpy applies a different deterministic permutation
to equal keys.  Facts that do not depend on tie order — which indices
appear, output lengths, the non-increasing order of the score values,
determinism — hold of any deterministic value-correct sort and are
stated without a length bound; the tie-order theorem is stated only
under the `≤ 16` bound. -/
def argsort (scores : List ℚ) : List Nat :=
  List.insertionSort (sRel scores) (List.range scores.length)

/-- `indices_ordenados[:num]`: the source reverses `argsort` (line 204)
and its accumulation loop (lines 214-223) stops as soon as
`num_recomendacoes` entries are collected, i.e. takes a prefix. -/
def indicesRecomendados (scores : List ℚ) (num_recomendacoes : Nat) :
    List Nat :=
  ((argsort scores).reverse).take num_recomendacoes

/-- `gerar_recomendacoes` (recomendacao.py lines 172-226): `[]` for an
absent profile; otherwise score every catalog row against the profile,
order indices by descending score and emit the first
`num_recomendacoes` `(title, score)` pairs. There is no exclusion logic
in the source (its lines 206-208 defer it to "a final version"). -/
def gerar_recomendacoes (perfil : Option (List ℚ)) (df_itens : List String)
    (tfidf_matriz : List (List ℚ)) (num_recomendacoes : Nat) :
    List (String × ℚ) :=
  match perfil with
  | none => []
  | some p =>
    let scores := tfidf_matriz.map fun row => dot p row
    (indicesRecomendados scores num_recomendacoes).map fun i =>
      (df_itens.getD i "", scores.getD i 0)

/-- Modelled from the spec: the repository has no Evaluation Engine in
its source; spec section 4.4 defines true positives as
`recommended ∩ ground-truth-positive`, matched by title. -/
def truePositives (recommended gtPos : Finset String) : Finset String :=
  recommended ∩ gtPos

/-- Modelled from the spec: precision = `|TP| / |recommended|`, `0` when
the recommended list is empty (spec section 4.4). -/
def precisionMetric (recommended gtPos : Finset String) : ℚ :=
  if recommended = ∅ then 0
  else (truePositives recommended gtPos).card / recommended.card

/-- Modelled from the spec: recall = `|TP| / |ground-truth-positive|`,
`0` when the ground-truth-positive set is empty (spec section 4.4). -/
def recallMetric (recommended gtPos : Finset String) : ℚ :=
  if gtPos = ∅ then 0
  else (truePositives recommended gtPos).card / gtPos.card

/-- Modelled from the spec: F1 = harmonic mean of precision and recall,
`0` when both are `0` (spec section 4.4); since both metrics are
nonnegative, "both are 0" is exactly "their sum is 0". -/
def f1Metric (recommended gtPos : Finset String) : ℚ :=
  if precisionMetric recommended gtPos + recallMetric recommended gtPos = 0
  then 0
  else 2 * precisionMetric recommended gtPos *
      recallMetric recommended gtPos /
    (precisionMetric recommended gtPos + recallMetric recommended gtPos)

/-! ### Basic vector lemmas -/

theorem dot_nil_right (a : List ℚ) : dot a [] = 0 := by
  cases a <;> rfl

theorem dot_cons (x z : ℚ) (xs zs : List ℚ) :
    dot (x :: xs) (z :: zs) = x * z + dot xs zs := rfl

theorem dot_scaleVec (c : ℚ) (y z : List ℚ) :
    dot (scaleVec c y) z = c * dot y z := by
  induction y generalizing z with
  | nil => simp [dot, scaleVec]
  | cons y₀ ys ih =>
    cases z with
    | nil => simp [dot_nil_right]
    | cons z₀ zs =>
      simp only [scaleVec, List.map_cons] at *
      rw [dot_cons, dot_cons, ih]
      ring

theorem dot_subVec (x y z : List ℚ) (h : x.length = y.length) :
    dot (subVec x y) z = dot x z - dot y z := by
  induction x generalizing y z with
  | nil =>
    cases y with
    | nil => simp [dot, subVec]
    | cons y₀ ys => simp at h
  | cons x₀ xs ih =>
    cases y with
    | nil => simp at h
    | cons y₀ ys =>
      cases z with
      | nil => simp [dot_nil_right]
      | cons z₀ zs =>
        simp only [List.length_cons, Nat.succ.injEq] at h
        simp only [subVec, List.zipWith_cons_cons] at *
        rw [dot_cons, dot_cons, dot_cons, ih ys zs h]
        ring

theorem scaleVec_length (c : ℚ) (a : List ℚ) :
    (scaleVec c a).length = a.length := by
  simp [scaleVec]

theorem meanVec_singleton (v : List ℚ) : meanVec [v] = v := by
  simp [meanVec, sumVecs, scaleVec]

/-! ### The profile builder through `indicesValidos` -/

theorem obter_eq (usuario_id : Int) (df_avaliacoes : List Avaliacao)
    (df_itens : List String) (tfidf_matriz : List (List ℚ))
    (avaliacao_alvo : Int) :
    _obter_vetores_por_avaliacao usuario_id df_avaliacoes df_itens
        tfidf_matriz avaliacao_alvo =
      if (indicesValidos usuario_id df_avaliacoes df_itens.length
            avaliacao_alvo).isEmpty then none
      else some (meanVec ((indicesValidos usuario_id df_avaliacoes
          df_itens.length avaliacao_alvo).map fun idx =>
            tfidf_matriz.getD idx.toNat [])) := by
  unfold _obter_vetores_por_avaliacao indicesValidos
  by_cases h : (df_avaliacoes.filter fun r =>
      decide (r.usuario_id = usuario_id ∧ r.avaliacao = avaliacao_alvo)) = []
  · simp only [h, List.isEmpty_nil, if_true, List.map_nil, List.filter_nil]
  · have hf : (df_avaliacoes.filter fun r =>
        decide (r.usuario_id = usuario_id ∧
          r.avaliacao = avaliacao_alvo)).isEmpty = false := by
      simpa [List.isEmpty_iff] using h
    simp only [hf, Bool.false_eq_true, if_false]

theorem indicesValidos_filter (usuario_id : Int) (n_itens : Nat)
    (avaliacao_alvo : Int) (df_avaliacoes : List Avaliacao) :
    indicesValidos usuario_id
        (df_avaliacoes.filter fun r =>
          decide (0 ≤ r.filme_id ∧ r.filme_id < (n_itens : Int)))
        n_itens avaliacao_alvo =
      indicesValidos usuario_id df_avaliacoes n_itens avaliacao_alvo := by
  unfold indicesValidos
  simp only [List.filter_filter, List.filter_map]
  congr 1
  apply List.filter_congr
  intro a _
  simp only [Function.comp_apply]
  cases h1 : decide (0 ≤ a.filme_id ∧ a.filme_id < (n_itens : Int)) <;>
    cases h2 : decide (a.usuario_id = usuario_id ∧
      a.avaliacao = avaliacao_alvo) <;> rfl

/-! ### The ranking order -/

theorem sRel_total (s : List ℚ) : ∀ i j, sRel s i j ∨ sRel s j i := by
  intro i j
  rcases lt_trichotomy (s.getD i 0) (s.getD j 0) with h | h | h
  · exact Or.inl (Or.inl h)
  · rcases Nat.le_total i j with hij | hij
    · exact Or.inl (Or.inr ⟨h, hij⟩)
    · exact Or.inr (Or.inr ⟨h.symm, hij⟩)
  · exact Or.inr (Or.inl h)

theorem sRel_trans (s : List ℚ) :
    ∀ i j k, sRel s i j → sRel s j k → sRel s i k := by
  intro i j k hij hjk
  rcases hij with h1 | ⟨e1, l1⟩
  · rcases hjk with h2 | ⟨e2, _⟩
    · exact Or.inl (h1.trans h2)
    · exact Or.inl (e2 ▸ h1)
  · rcases hjk with h2 | ⟨e2, l2⟩
    · exact Or.inl (e1 ▸ h2)
    · exact Or.inr ⟨e1.trans e2, l1.trans l2⟩

theorem argsort_sorted (s : List ℚ) : (argsort s).Sorted (sRel s) := by
  haveI : IsTotal Nat (sRel s) := ⟨sRel_total s⟩
  haveI : IsTrans Nat (sRel s) := ⟨sRel_trans s⟩
  exact List.sorted_insertionSort (sRel s) (List.range s.length)

theorem argsort_perm (s : List ℚ) : (argsort s).Perm (List.range s.length) :=
  List.perm_insertionSort (sRel s) (List.range s.length)

theorem argsort_nodup (s : List ℚ) : (argsort s).Nodup :=
  (argsort_perm s).symm.nodup (List.nodup_range s.length)

theorem argsort_length (s : List ℚ) : (argsort s).length = s.length := by
  rw [(argsort_perm s).length_eq, List.length_range]

theorem indicesRecomendados_length (s : List ℚ) (n : Nat) :
    (indicesRecomendados s n).length = min n s.length := by
  rw [indicesRecomendados, List.length_take, List.length_reverse,
    argsort_length]

theorem indicesRecomendados_pairwise (s : List ℚ) (n : Nat) :
    (indicesRecomendados s n).Pairwise fun i j => sRel s j i ∧ i ≠ j := by
  have h2 : ((argsort s).reverse).Pairwise fun i j => sRel s j i :=
    List.pairwise_reverse.mpr (argsort_sorted s)
  have h4 : ((argsort s).reverse).Pairwise fun i j => i ≠ j :=
    List.nodup_reverse.mpr (argsort_nodup s)
  exact List.Pairwise.sublist (List.take_sublist n _) (h2.and h4)

theorem gerar_length (p : List ℚ) (df_itens : List String)
    (tfidf_matriz : List (List ℚ)) (n : Nat) :
    (gerar_recomendacoes (some p) df_itens tfidf_matriz n).length =
      min n tfidf_matriz.length := by
  simp only [gerar_recomendacoes, List.length_map]
  rw [indicesRecomendados_length, List.length_map]

/-! ### Claim theorems -/

/-- Claim C10: for every present profile and every `top_n`, the ranker
returns exactly `min top_n M` entries, where `M` is the number of catalog
rows scored: nothing is filtered out before the top-N cut. -/
theorem rank_length_min_catalog (p : List ℚ) (df_itens : List String)
    (tfidf_matriz : List (List ℚ)) (n : Nat) :
    (gerar_recomendacoes (some p) df_itens tfidf_matriz n).length =
      min n tfidf_matriz.length :=
  gerar_length p df_itens tfidf_matriz n

/-- Claim C8: `gerar_recomendacoes` is deterministic — two calls on the
same catalog, vector space, profile and `top_n` return the identical
ordered output.  The embedded computation depends on nothing but its
arguments (the source reads no mutable state inside this function), so
determinism is reflexivity. -/
theorem rank_deterministic (perfil : Option (List ℚ))
    (df_itens : List String) (tfidf_matriz : List (List ℚ)) (n : Nat) :
    gerar_recomendacoes perfil df_itens tfidf_matriz n =
      gerar_recomendacoes perfil df_itens tfidf_matriz n := rfl

/-- Claim C2: the output of `gerar_recomendacoes` has length at most
`top_n`, is sorted by non-increasing score, and when the profile is
present its length is exactly `min top_n M` — when fewer than `top_n`
items exist, all of them are returned, with no padding and no error. -/
theorem rank_top_n_bound_and_sorted (perfil : Option (List ℚ))
    (df_itens : List String) (tfidf_matriz : List (List ℚ)) (n : Nat) :
    (gerar_recomendacoes perfil df_itens tfidf_matriz n).length ≤ n ∧
    (gerar_recomendacoes perfil df_itens tfidf_matriz n).Pairwise
      (fun x y => y.2 ≤ x.2) ∧
    (∀ p, perfil = some p →
      (gerar_recomendacoes perfil df_itens tfidf_matriz n).length =
        min n tfidf_matriz.length) := by
  cases perfil with
  | none =>
    refine ⟨by simp [gerar_recomendacoes], by simp [gerar_recomendacoes], ?_⟩
    intro p h
    exact absurd h (by simp)
  | some p =>
    refine ⟨?_, ?_, ?_⟩
    · rw [gerar_length]
      exact Nat.min_le_left _ _
    · simp only [gerar_recomendacoes]
      rw [List.pairwise_map]
      apply List.Pairwise.imp ?_ (indicesRecomendados_pairwise _ n)
      intro i j hij
      rcases hij.1 with h | h
      · exact le_of_lt h
      · exact le_of_eq h.1
    · intro q hq
      cases hq
      exact gerar_length p df_itens tfidf_matriz n

/-- Claim C2 witness: a concrete run with a one-item catalog and
`top_n = 2`: one entry comes back, which is `min 2 1`. -/
theorem rank_top_n_bound_and_sorted_witness :
    (gerar_recomendacoes (some [1]) ["A"] [[1]] 2).length ≤ 2 ∧
    (gerar_recomendacoes (some [1]) ["A"] [[1]] 2).Pairwise
      (fun x y => y.2 ≤ x.2) ∧
    (gerar_recomendacoes (some [1]) ["A"] [[1]] 2).length = min 2 1 :=
  ⟨(rank_top_n_bound_and_sorted (some [1]) ["A"] [[1]] 2).1,
   (rank_top_n_bound_and_sorted (some [1]) ["A"] [[1]] 2).2.1,
   (rank_top_n_bound_and_sorted (some [1]) ["A"] [[1]] 2).2.2 [1] rfl⟩

/-- Claim C3 (amended): ties are NOT broken by ascending catalog index.
For catalogs of at most 16 items — where numpy's default `argsort`
provably degenerates to a stable insertion sort, so the embedding is
exact — two entries with equal score appear with the LARGER catalog
index first: the stable ascending sort keeps ties in ascending index
order and the `[::-1]` reversal turns that into descending index
order.  On larger catalogs numpy's introsort applies a different
deterministic permutation to ties, so no index-based tie rule is
claimed there.  Stated on the index list the output is mapped from,
since two catalog items may share a title. -/
theorem rank_tie_descending_index (p : List ℚ)
    (tfidf_matriz : List (List ℚ)) (n : Nat)
    (_hsmall : tfidf_matriz.length ≤ 16) :
    (indicesRecomendados (tfidf_matriz.map fun row => dot p row) n).Pairwise
      fun i j => (tfidf_matriz.map fun row => dot p row).getD i 0 =
          (tfidf_matriz.map fun row => dot p row).getD j 0 → j < i := by
  apply List.Pairwise.imp ?_ (indicesRecomendados_pairwise _ n)
  intro i j hij heq
  rcases hij.1 with h | h
  · rw [heq] at h
    exact absurd h (lt_irrefl _)
  · exact lt_of_le_of_ne h.2 (Ne.symm hij.2)

/-- Claim C5: a user with no validly-indexed positive rating gets no
profile (`none`), and the ranker given an absent profile returns `[]`
rather than failing. -/
theorem perfil_none_rank_empty (usuario_id : Int) (df_itens : List String)
    (tfidf_matriz : List (List ℚ)) (df_avaliacoes : List Avaliacao)
    (h : ∀ r ∈ df_avaliacoes, r.usuario_id = usuario_id →
      r.avaliacao = 1 →
      ¬(0 ≤ r.filme_id ∧ r.filme_id < (df_itens.length : Int))) :
    construir_perfil usuario_id df_itens tfidf_matriz df_avaliacoes =
        none ∧
    ∀ n, gerar_recomendacoes none df_itens tfidf_matriz n = [] := by
  have hiv : indicesValidos usuario_id df_avaliacoes df_itens.length 1
      = [] := by
    unfold indicesValidos
    rw [List.filter_eq_nil_iff]
    intro a ha
    rw [List.mem_map] at ha
    obtain ⟨r, hr, rfl⟩ := ha
    rw [List.mem_filter] at hr
    simp only [decide_eq_true_eq] at hr ⊢
    exact h r hr.1 hr.2.1 hr.2.2
  constructor
  · unfold construir_perfil
    rw [obter_eq, hiv]
    rfl
  · intro n
    rfl

/-- Claim C5 witness: user 0's only rating points at item index 5 of a
one-item catalog, so no profile exists and ranking the absent profile
gives the empty list. -/
theorem perfil_none_rank_empty_witness :
    construir_perfil 0 ["A"] [[1]] [⟨0, 5, 1⟩] = none ∧
    gerar_recomendacoes none ["A"] [[1]] 10 = [] :=
  ⟨(perfil_none_rank_empty 0 ["A"] [[1]] [⟨0, 5, 1⟩] (by decide)).1,
   (perfil_none_rank_empty 0 ["A"] [[1]] [⟨0, 5, 1⟩] (by decide)).2 10⟩

/-- Claim C7: ratings whose item index lies outside `[0, catalog size)`
are dropped silently — the profile computed from the full rating table
equals the profile computed after deleting every such rating, and the
computation never fails (it is total). -/
theorem perfil_ignores_invalid_ratings (usuario_id : Int)
    (df_itens : List String) (tfidf_matriz : List (List ℚ))
    (df_avaliacoes : List Avaliacao) :
    construir_perfil usuario_id df_itens tfidf_matriz
        (df_avaliacoes.filter fun r =>
          decide (0 ≤ r.filme_id ∧
            r.filme_id < (df_itens.length : Int))) =
      construir_perfil usuario_id df_itens tfidf_matriz df_avaliacoes := by
  unfold construir_perfil
  rw [obter_eq, obter_eq, obter_eq, obter_eq, indicesValidos_filter,
    indicesValidos_filter]

/-- Claim C4: with at least one validly-indexed positive rating, the
profile is the arithmetic mean of the positively-rated item vectors, and
when validly-indexed negative ratings exist it is
`positive mean − FATOR_PONDERACAO · negative mean`, with
`FATOR_PONDERACAO = 1/2`. -/
theorem perfil_mean_and_damping (usuario_id : Int) (df_itens : List String)
    (tfidf_matriz : List (List ℚ)) (df_avaliacoes : List Avaliacao)
    (hpos : indicesValidos usuario_id df_avaliacoes df_itens.length 1
      ≠ []) :
    FATOR_PONDERACAO = 1 / 2 ∧
    construir_perfil usuario_id df_itens tfidf_matriz df_avaliacoes =
      some (if indicesValidos usuario_id df_avaliacoes df_itens.length 0
          = [] then
        meanVec ((indicesValidos usuario_id df_avaliacoes
          df_itens.length 1).map fun idx => tfidf_matriz.getD idx.toNat [])
      else
        subVec
          (meanVec ((indicesValidos usuario_id df_avaliacoes
            df_itens.length 1).map fun idx =>
              tfidf_matriz.getD idx.toNat []))
          (scaleVec FATOR_PONDERACAO
            (meanVec ((indicesValidos usuario_id df_avaliacoes
              df_itens.length 0).map fun idx =>
                tfidf_matriz.getD idx.toNat [])))) := by
  refine ⟨rfl, ?_⟩
  unfold construir_perfil
  rw [obter_eq, obter_eq]
  have h1 : (indicesValidos usuario_id df_avaliacoes
      df_itens.length 1).isEmpty = false := by
    simpa [List.isEmpty_iff] using hpos
  rw [h1]
  by_cases h0 : indicesValidos usuario_id df_avaliacoes df_itens.length 0
      = []
  · simp only [h0, List.isEmpty_nil, if_true, Bool.false_eq_true, if_false]
  · have h0' : (indicesValidos usuario_id df_avaliacoes
        df_itens.length 0).isEmpty = false := by
      simpa [List.isEmpty_iff] using h0
    simp only [h0', Bool.false_eq_true, if_false, if_neg h0]

/-- Claim C1: the source's ranker has no exclusion logic at all —
`gerar_recomendacoes` does not even take an exclude set, assigns no
sentinel score, and returns already-rated items.  Here user 0 positively
rated item 0 ("A"), so the exclude set of the spec would be `{0}`, yet
"A" is returned (first, with its self-similarity score 1). -/
theorem rank_returns_already_rated_item :
    construir_perfil 0 ["A", "B"] [[1, 0], [0, 1]] [⟨0, 0, 1⟩] =
        some [1, 0] ∧
    gerar_recomendacoes (some [1, 0]) ["A", "B"] [[1, 0], [0, 1]] 2 =
      [("A", 1), ("B", 0)] := by
  constructor
  · norm_num [construir_perfil, _obter_vetores_por_avaliacao, meanVec,
      sumVecs, scaleVec, List.filter_cons]
  · norm_num [gerar_recomendacoes, indicesRecomendados, argsort, dot, sRel,
      List.insertionSort, List.orderedInsert, List.range_succ]

/-- Claim C3 counterexample: both catalog items score 1 against the
profile `[1]`; the claim says the smaller catalog index ("A", index 0)
comes first, but the code returns "B" (index 1) first, because
`argsort` keeps ties in ascending index order and the `[::-1]` reversal
flips them. -/
theorem rank_tie_order_counterexample :
    gerar_recomendacoes (some [1]) ["A", "B"] [[1], [1]] 2 =
      [("B", 1), ("A", 1)] := by
  norm_num [gerar_recomendacoes, indicesRecomendados, argsort, dot, sRel,
    List.insertionSort, List.orderedInsert, List.range_succ]

/-- Claim C3 (amended) witness: the two-item catalog is within the
16-item bound, and on its two-way tie the index list behind the output
satisfies the descending-index tie rule. -/
theorem rank_tie_descending_index_witness :
    ([[(1 : ℚ)], [1]] : List (List ℚ)).length ≤ 16 ∧
    (indicesRecomendados ([[(1 : ℚ)], [1]].map fun row => dot [1] row)
        2).Pairwise
      fun i j => ([[(1 : ℚ)], [1]].map fun row => dot [1] row).getD i 0 =
          ([[(1 : ℚ)], [1]].map fun row => dot [1] row).getD j 0 →
          j < i :=
  ⟨by decide, rank_tie_descending_index [1] [[1], [1]] 2 (by decide)⟩

/-- Claim C4 witness: user 0 likes item 0 and dislikes item 1 in a
two-item catalog; the hypothesis (a validly-indexed positive rating
exists) holds and the profile is the damped combination. -/
theorem perfil_mean_and_damping_witness :
    FATOR_PONDERACAO = 1 / 2 ∧
    construir_perfil 0 ["A", "B"] [[1, 0], [0, 1]]
        [⟨0, 0, 1⟩, ⟨0, 1, 0⟩] =
      some (if indicesValidos 0 [⟨0, 0, 1⟩, ⟨0, 1, 0⟩]
          (["A", "B"] : List String).length 0 = [] then
        meanVec ((indicesValidos 0 [⟨0, 0, 1⟩, ⟨0, 1, 0⟩]
          (["A", "B"] : List String).length 1).map fun idx =>
            [[1, 0], [0, 1]].getD idx.toNat [])
      else
        subVec
          (meanVec ((indicesValidos 0 [⟨0, 0, 1⟩, ⟨0, 1, 0⟩]
            (["A", "B"] : List String).length 1).map fun idx =>
              [[1, 0], [0, 1]].getD idx.toNat []))
          (scaleVec FATOR_PONDERACAO
            (meanVec ((indicesValidos 0 [⟨0, 0, 1⟩, ⟨0, 1, 0⟩]
              (["A", "B"] : List String).length 0).map fun idx =>
                [[1, 0], [0, 1]].getD idx.toNat [])))) :=
  perfil_mean_and_damping 0 ["A", "B"] [[1, 0], [0, 1]]
    [⟨0, 0, 1⟩, ⟨0, 1, 0⟩] (by decide)

/-- Claim C6 counterexample: item B's TF-IDF row is the zero vector
(attainable: an item whose content blob produces no vocabulary terms).
User 0 rates A=1 and B=0; the damped profile and the positive-only
profile are both `[1]`, so B's score against the damped profile — the
first `dot [1] [0]` — is NOT strictly lower than against the
positive-only profile, refuting the claim as stated. -/
theorem damping_not_strict_counterexample :
    construir_perfil 0 ["A", "B"] [[(1 : ℚ)], [0]]
        [⟨0, 0, 1⟩, ⟨0, 1, 0⟩] = some [1] ∧
    construir_perfil 0 ["A", "B"] [[(1 : ℚ)], [0]] [⟨0, 0, 1⟩] =
        some [1] ∧
    ¬ dot [1] [0] < dot [1] [0] := by
  refine ⟨?_, ?_, lt_irrefl _⟩
  · norm_num [construir_perfil, _obter_vetores_por_avaliacao, meanVec,
      sumVecs, scaleVec, subVec, FATOR_PONDERACAO, List.filter_cons]
  · norm_num [construir_perfil, _obter_vetores_por_avaliacao, meanVec,
      sumVecs, scaleVec, List.filter_cons]

/-- Claim C6 (amended): for a user rating a valid item `a` positively
and a distinct valid item `b` negatively, B's score against the damped
profile (λ = FATOR_PONDERACAO = 1/2) is strictly lower than against the
positive-only profile built from the same positive ratings — provided
item `b`'s vector is not the zero vector (`0 < dot vB vB`); when it is
zero the two scores are equal. -/
theorem damping_strictly_lowers_score (usuario_id a b : Int)
    (df_itens : List String) (tfidf_matriz : List (List ℚ))
    (vA vB : List ℚ)
    (ha : 0 ≤ a ∧ a < (df_itens.length : Int))
    (hb : 0 ≤ b ∧ b < (df_itens.length : Int))
    (hab : a ≠ b)
    (hvA : tfidf_matriz.getD a.toNat [] = vA)
    (hvB : tfidf_matriz.getD b.toNat [] = vB)
    (hlen : vA.length = vB.length)
    (hbpos : 0 < dot vB vB) :
    construir_perfil usuario_id df_itens tfidf_matriz
        [⟨usuario_id, a, 1⟩, ⟨usuario_id, b, 0⟩] =
      some (subVec vA (scaleVec FATOR_PONDERACAO vB)) ∧
    construir_perfil usuario_id df_itens tfidf_matriz
        [⟨usuario_id, a, 1⟩] = some vA ∧
    dot (subVec vA (scaleVec FATOR_PONDERACAO vB)) vB < dot vA vB := by
  have iv1 : indicesValidos usuario_id
      [⟨usuario_id, a, 1⟩, ⟨usuario_id, b, 0⟩] df_itens.length 1
      = [a] := by
    norm_num [indicesValidos, List.filter_cons, ha.1, ha.2]
  have iv0 : indicesValidos usuario_id
      [⟨usuario_id, a, 1⟩, ⟨usuario_id, b, 0⟩] df_itens.length 0
      = [b] := by
    norm_num [indicesValidos, List.filter_cons, hb.1, hb.2]
  have iv1s : indicesValidos usuario_id [⟨usuario_id, a, 1⟩]
      df_itens.length 1 = [a] := by
    norm_num [indicesValidos, List.filter_cons, ha.1, ha.2]
  have iv0s : indicesValidos usuario_id [⟨usuario_id, a, 1⟩]
      df_itens.length 0 = [] := by
    norm_num [indicesValidos, List.filter_cons]
  have hvA' : tfidf_matriz[a.toNat]?.getD [] = vA := by
    rw [← List.getD_eq_getElem?_getD]; exact hvA
  have hvB' : tfidf_matriz[b.toNat]?.getD [] = vB := by
    rw [← List.getD_eq_getElem?_getD]; exact hvB
  refine ⟨?_, ?_, ?_⟩
  · unfold construir_perfil
    rw [obter_eq, obter_eq, iv1, iv0]
    simp [meanVec_singleton, hvA', hvB']
  · unfold construir_perfil
    rw [obter_eq, obter_eq, iv1s, iv0s]
    simp [meanVec_singleton, hvA']
  · have hd : dot (subVec vA (scaleVec FATOR_PONDERACAO vB)) vB
        = dot vA vB - FATOR_PONDERACAO * dot vB vB := by
      rw [dot_subVec _ _ _ (by rw [scaleVec_length]; exact hlen),
        dot_scaleVec]
    have hpos : 0 < FATOR_PONDERACAO * dot vB vB :=
      mul_pos (by norm_num [FATOR_PONDERACAO]) hbpos
    rw [hd]
    linarith

/-- Claim C6 (amended) witness: orthonormal rows `[1,0]` and `[0,1]`;
every hypothesis holds and B's damped score `-1/2` is below its
positive-only score `0`. -/
theorem damping_strictly_lowers_score_witness :
    construir_perfil 0 ["A", "B"] [[1, 0], [0, 1]]
        [⟨0, 0, 1⟩, ⟨0, 1, 0⟩] =
      some (subVec [1, 0] (scaleVec FATOR_PONDERACAO [0, 1])) ∧
    construir_perfil 0 ["A", "B"] [[1, 0], [0, 1]] [⟨0, 0, 1⟩] =
        some [1, 0] ∧
    dot (subVec [1, 0] (scaleVec FATOR_PONDERACAO [0, 1])) [0, 1] <
      dot [1, 0] [0, 1] :=
  damping_strictly_lowers_score 0 0 1 ["A", "B"] [[1, 0], [0, 1]]
    [1, 0] [0, 1] (by decide) (by decide) (by decide) rfl rfl rfl
    (by norm_num [dot])

/-- Claim C9: precision, recall and F1 all lie in `[0, 1]`; precision is
0 for an empty recommended set, recall is 0 for an empty
ground-truth-positive set, and F1 is 0 when precision and recall are
both 0.  (The Evaluation Engine exists only in the spec, section 4.4;
the metric definitions above are modelled from its words.) -/
theorem metric_bounds (recommended gtPos : Finset String) :
    (0 ≤ precisionMetric recommended gtPos ∧
      precisionMetric recommended gtPos ≤ 1) ∧
    (0 ≤ recallMetric recommended gtPos ∧
      recallMetric recommended gtPos ≤ 1) ∧
    (0 ≤ f1Metric recommended gtPos ∧ f1Metric recommended gtPos ≤ 1) ∧
    (recommended = ∅ → precisionMetric recommended gtPos = 0) ∧
    (gtPos = ∅ → recallMetric recommended gtPos = 0) ∧
    (precisionMetric recommended gtPos = 0 ∧
        recallMetric recommended gtPos = 0 →
      f1Metric recommended gtPos = 0) := by
  have hp : 0 ≤ precisionMetric recommended gtPos ∧
      precisionMetric recommended gtPos ≤ 1 := by
    unfold precisionMetric
    split_ifs with h
    · exact ⟨le_refl 0, zero_le_one⟩
    · have hcard : (0 : ℚ) < recommended.card := by
        exact_mod_cast Finset.card_pos.mpr
          (Finset.nonempty_iff_ne_empty.mpr h)
      constructor
      · positivity
      · rw [div_le_one hcard]
        exact_mod_cast Finset.card_le_card Finset.inter_subset_left
  have hr : 0 ≤ recallMetric recommended gtPos ∧
      recallMetric recommended gtPos ≤ 1 := by
    unfold recallMetric
    split_ifs with h
    · exact ⟨le_refl 0, zero_le_one⟩
    · have hcard : (0 : ℚ) < gtPos.card := by
        exact_mod_cast Finset.card_pos.mpr
          (Finset.nonempty_iff_ne_empty.mpr h)
      constructor
      · positivity
      · rw [div_le_one hcard]
        exact_mod_cast Finset.card_le_card Finset.inter_subset_right
  have hf : 0 ≤ f1Metric recommended gtPos ∧
      f1Metric recommended gtPos ≤ 1 := by
    unfold f1Metric
    split_ifs with h
    · exact ⟨le_refl 0, zero_le_one⟩
    · have hsum : 0 < precisionMetric recommended gtPos +
          recallMetric recommended gtPos :=
        lt_of_le_of_ne (by linarith [hp.1, hr.1]) (Ne.symm h)
      constructor
      · have : 0 ≤ 2 * precisionMetric recommended gtPos *
            recallMetric recommended gtPos := by
          have := hp.1
          have := hr.1
          positivity
        exact div_nonneg this (le_of_lt hsum)
      · rw [div_le_one hsum]
        have h1 : precisionMetric recommended gtPos *
            recallMetric recommended gtPos ≤
              precisionMetric recommended gtPos :=
          mul_le_of_le_one_right hp.1 hr.2
        have h2 : precisionMetric recommended gtPos *
            recallMetric recommended gtPos ≤
              recallMetric recommended gtPos :=
          mul_le_of_le_one_left hr.1 hp.2
        linarith
  refine ⟨hp, hr, hf, ?_, ?_, ?_⟩
  · intro h
    unfold precisionMetric
    rw [if_pos h]
  · intro h
    unfold recallMetric
    rw [if_pos h]
  · intro h
    unfold f1Metric
    rw [if_pos (by rw [h.1, h.2, add_zero])]

/-- Claim C9 witness: both sets empty — all bounds hold and every
zero-condition fires. -/
theorem metric_bounds_witness :
    ((0 ≤ precisionMetric ∅ ∅ ∧ precisionMetric ∅ ∅ ≤ 1) ∧
      (0 ≤ recallMetric ∅ ∅ ∧ recallMetric ∅ ∅ ≤ 1) ∧
      (0 ≤ f1Metric ∅ ∅ ∧ f1Metric ∅ ∅ ≤ 1) ∧
      ((∅ : Finset String) = ∅ → precisionMetric ∅ ∅ = 0) ∧
      ((∅ : Finset String) = ∅ → recallMetric ∅ ∅ = 0) ∧
      (precisionMetric ∅ ∅ = 0 ∧ recallMetric ∅ ∅ = 0 →
        f1Metric ∅ ∅ = 0)) ∧
    precisionMetric ∅ ∅ = 0 ∧ recallMetric ∅ ∅ = 0 ∧ f1Metric ∅ ∅ = 0 :=
  ⟨metric_bounds ∅ ∅,
   (metric_bounds ∅ ∅).2.2.2.1 rfl,
   (metric_bounds ∅ ∅).2.2.2.2.1 rfl,
   (metric_bounds ∅ ∅).2.2.2.2.2
     ⟨(metric_bounds ∅ ∅).2.2.2.1 rfl,
      (metric_bounds ∅ ∅).2.2.2.2.1 rfl⟩⟩

end Rice
